import Mathlib

set_option maxRecDepth 8000

/-!
# Verification of the teleop attachment and capability-routing layer

Shallow embedding of the core of the `teleop` crate, translated from the
Rust sources:

* `src/operate/capnp/mod.rs` — the `TeleopServer` capability router
  (`register_service`, the `service` RPC method, `run_server_connection`);
* `src/operate/capnp/echo.rs` — the `Echo` conformance capability;
* `src/attach/unix_socket.rs` — `listen`, `await_attach_signal`, `connect`,
  the path helpers and `AutoDropFile`;
* `src/attach/windows_unix_socket.rs` — `connect_to_socket`;
* `src/attach/attacher/{unix,inotify,kqueue,dummy}.rs` — the attacher
  variants (`signal`, `signaled`, `AttacherSignal::send`);
* `src/internal.rs` — `AutoDropFile`, `attach_file_path`.

Pure data is modelled directly; the effectful parts (filesystem, OS
signals, the retry loop of `connect`, the event loops of `signaled()`)
are modelled by explicit state passing: the filesystem is a set of
paths, OS event delivery is an explicit finite trace of the events
delivered so far, and existence checks performed by the code are
answered by an oracle indexed by the serial number of the check.
-/

namespace Teleop

/-! ## Cap'n Proto errors

`capnp::Error` carries an `ErrorKind` and a message (`extra`).
`capnp::Error::failed(msg)` builds the `Failed` kind. -/

/-- The four error kinds of `capnp::ErrorKind`. -/
inductive ErrorKind where
  | failed
  | overloaded
  | disconnected
  | unimplemented
deriving DecidableEq, Repr

/-- `capnp::Error`: an error kind together with its message string. -/
structure Error where
  kind : ErrorKind
  extra : String
deriving DecidableEq, Repr

/-- `capnp::Error::failed(msg)`: an error of the `Failed` kind. -/
def Error.failedErr (msg : String) : Error :=
  { kind := .failed, extra := msg }

/-! ## The capability router (`src/operate/capnp/mod.rs`)

`TeleopServer` holds `services : BTreeMap<String, LazyLock<Box<dyn
ClientHook>, ...>>`.  A capability hook is modelled by a `Nat`; a
factory is identified by a `Nat`, and realizing the factory with id
`fid` yields the hook `fid` (cloning a hook shares it, so a clone is
the same value).  A `LazyLock` cell is either still a thunk carrying
its factory id, or realized to a hook. -/

/-- A `LazyLock` cell of the router map: an unrealized factory or the
memoized capability hook. -/
inductive LazyCell where
  | uninit (factoryId : Nat)
  | ready (hook : Nat)
deriving DecidableEq, Repr

/-- Lookup in the `BTreeMap`, modelled on an association list. -/
def servicesGet : List (String × LazyCell) → String → Option LazyCell
  | [], _ => none
  | (k, c) :: rest, name => if k = name then some c else servicesGet rest name

/-- `BTreeMap::insert`: replaces the binding when the key is present,
otherwise adds it. -/
def servicesInsert : List (String × LazyCell) → String → LazyCell → List (String × LazyCell)
  | [], name, cell => [(name, cell)]
  | (k, c) :: rest, name, cell =>
    if k = name then (name, cell) :: rest
    else (k, c) :: servicesInsert rest name cell

/-- The `TeleopServer` state: its service map. -/
structure TeleopServer where
  services : List (String × LazyCell)
deriving DecidableEq, Repr

/-- `TeleopServer::new()`: no services registered. -/
def TeleopServer.new : TeleopServer := ⟨[]⟩

/-- `TeleopServer::register_service(name, f)`: inserts an unrealized
`LazyLock` cell for the factory; the factory is not run. -/
def TeleopServer.registerService (s : TeleopServer) (name : String) (fid : Nat) :
    TeleopServer :=
  ⟨servicesInsert s.services name (.uninit fid)⟩

/-- Outcome of one `Teleop::service` RPC call: the per-call result, the
router state after the call (realization memoizes), and how many times a
registered factory was run during the call. -/
structure ServiceOutcome where
  result : Except Error Nat
  state : TeleopServer
  factoryRuns : Nat
deriving Repr

/-- The `service` method of `impl teleop_capnp::teleop::Server for
TeleopServer`: look the name up; on a miss fail the call with
`Error::failed("service {name} not found")`; on a hit force the
`LazyLock` (running the factory exactly when the cell is unrealized)
and answer with a clone of the memoized hook. -/
def TeleopServer.service (s : TeleopServer) (name : String) : ServiceOutcome :=
  match servicesGet s.services name with
  | none =>
    { result := .error (Error.failedErr ("service " ++ name ++ " not found"))
      state := s
      factoryRuns := 0 }
  | some (.uninit fid) =>
    { result := .ok fid
      state := ⟨servicesInsert s.services name (.ready fid)⟩
      factoryRuns := 1 }
  | some (.ready hook) =>
    { result := .ok hook
      state := s
      factoryRuns := 0 }

/-- `n` successive `service(name)` calls on one router; returns the
final state and the total number of factory invocations. -/
def TeleopServer.serviceIter (s : TeleopServer) (name : String) : Nat → TeleopServer × Nat
  | 0 => (s, 0)
  | n + 1 =>
    let o := s.service name
    let r := o.state.serviceIter name n
    (r.1, o.factoryRuns + r.2)

/-! ## The echo capability (`src/operate/capnp/echo.rs`) -/

/-- Parameters of `Echo::echo`: the `message` text field. -/
structure EchoParams where
  message : String
deriving DecidableEq, Repr

/-- Results of `Echo::echo`: the `reply` text field. -/
structure EchoResults where
  reply : String
deriving DecidableEq, Repr

/-- `EchoServer::echo`: reads `message` from the params and sets it as
`reply` in the results. -/
def EchoServer.echo (params : EchoParams) : Except Error EchoResults :=
  .ok { reply := params.message }

/-! ## Filesystem paths and `AutoDropFile`
(`src/internal.rs`, `src/attach/unix_socket.rs`)

The filesystem is modelled as the finite set (a duplicate-free list is
not required) of the paths that currently exist. -/

/-- `attach_file_path`: `<cwd-of-target>/.teleop_attach_<pid>` (the
witness file path, `internal.rs` joins the resolved cwd with the
formatted file name). -/
def attachFilePath (cwd : String) (pid : Nat) : String :=
  cwd ++ "/.teleop_attach_" ++ toString pid

/-- `socket_file_path`: `<system-temp-dir>/.teleop_pid_<pid>`. -/
def socketFilePath (tmp : String) (pid : Nat) : String :=
  tmp ++ "/.teleop_pid_" ++ toString pid

/-- The set of paths that exist on disk. -/
abbrev Fs := List String

/-- `path.exists()`. -/
def fileExists (fs : Fs) (p : String) : Bool :=
  decide (p ∈ fs)

/-- `File::create(path)`: the path exists afterwards (creating an
existing file truncates it; existence is unchanged). -/
def createFile (fs : Fs) (p : String) : Fs :=
  if fileExists fs p then fs else p :: fs

/-- `std::fs::remove_file(path)`. -/
def removeFile (fs : Fs) (p : String) : Fs :=
  List.filter (fun q => decide ¬(q = p)) fs

/-- `AutoDropFile::drop`: `if self.0.exists() { remove_file(&self.0) }`. -/
def autoDropFileDrop (fs : Fs) (p : String) : Fs :=
  if fileExists fs p then removeFile fs p else fs

/-- `AttacherSignal::send` for the Unix attacher
(`attacher/unix.rs`), restricted to its filesystem effect: re-create
the witness file if the handle holds none or the file no longer
exists; then raise `SIGQUIT` (no filesystem effect). The inotify and
kqueue `send`s have the same filesystem effect. -/
def signalSend (fs : Fs) (p : String) : Fs :=
  if fileExists fs p then fs else createFile fs p

/-- `n` successive `send()` calls on one handle. -/
def signalSendIter (p : String) (fs : Fs) : Nat → Fs
  | 0 => fs
  | n + 1 => signalSend (signalSendIter p fs n) p

/-! ## The `connect` retry loop
(`src/attach/unix_socket.rs::connect`,
`src/attach/windows_unix_socket.rs::connect_to_socket`)

The effectful run of `connect` is recorded as a list of effects.
Whether the rendezvous socket exists is answered by an oracle `ex`
indexed by the serial number of the existence check (the code calls
`socket_file_path.exists()` afresh each time). -/

/-- One observable step of a `connect` run. -/
inductive ConnEffect where
  | checkSocket
  | createWitness
  | sendQuit
  | sendSignal
  | sleep100
  | openSocket
  | dropWitness
deriving DecidableEq, Repr

/-- How a `connect` run ends: success, a Rust `panic`
(`unix_socket.rs` line 134), or an `Err` return
(`windows_unix_socket.rs` line 146). -/
inductive ConnectOutcome where
  | ok
  | crashed (msg : String)
  | errReturn (msg : String)
deriving DecidableEq, Repr

/-- The failure message
`format!("Unable to open socket file {}: target process {} doesn't respond", path, pid)`. -/
def noResponseMsg (path : String) (pid : Nat) : String :=
  "Unable to open socket file " ++ path ++ ": target process " ++
    toString pid ++ " doesn't respond"

/-- The `while !socket_file_path.exists() && attempts < 100 { sleep;
send; attempts += 1 }` loop.  `sendEff` is the per-iteration signal
effect (`SIGQUIT` kill for the Unix variant, `AttacherSignal::send`
for the generic Windows variant), `checkIdx` the serial number of the
next existence check, and `fuel = 100 - attempts` the remaining
iterations the second conjunct allows.  The existence check is
evaluated first (Rust `&&` short-circuits), so the condition consumes
one check even on the exit that exhausts the budget.  Returns the
effect list of the loop, the number of signal sends it performed, and
the serial number of the next check after the loop. -/
def retryLoop (sendEff : ConnEffect) (ex : Nat → Bool) : Nat → Nat → List ConnEffect × Nat × Nat
  | checkIdx, 0 => ([.checkSocket], 0, checkIdx + 1)
  | checkIdx, fuel + 1 =>
    if ex checkIdx then ([.checkSocket], 0, checkIdx + 1)
    else
      let r := retryLoop sendEff ex (checkIdx + 1) fuel
      (.checkSocket :: .sleep100 :: sendEff :: r.1, r.2.1 + 1, r.2.2)

/-- A completed `connect` run: its effect trace and outcome. -/
structure ConnectRun where
  effects : List ConnEffect
  outcome : ConnectOutcome
deriving DecidableEq, Repr

/-- `unix_socket.rs::connect(pid)`.  Check the socket path; when
present, just open the socket.  Otherwise create the witness file
(`AutoDropFile::create`), raise `SIGQUIT`, run the retry loop starting
at `attempts = 1` (so at most `99` more sends), re-check, and on
failure `panic!` with the no-response message; on success open the
socket and drop the witness file (the `AutoDropFile` goes out of scope
on return). -/
def connectUnix (pid : Nat) (tmp : String) (ex : Nat → Bool) : ConnectRun :=
  if ex 0 then
    { effects := [.checkSocket, .openSocket], outcome := .ok }
  else
    let r := retryLoop .sendQuit ex 1 99
    if ex r.2.2 then
      { effects := [.checkSocket, .createWitness, .sendQuit] ++ r.1 ++
          [.checkSocket, .openSocket, .dropWitness]
        outcome := .ok }
    else
      { effects := [.checkSocket, .createWitness, .sendQuit] ++ r.1 ++ [.checkSocket]
        outcome := .crashed (noResponseMsg (socketFilePath tmp pid) pid) }

/-- `windows_unix_socket.rs::connect_to_socket::<A>(pid, path)`.  Same
control flow as the Unix `connect`, with `A::signal(pid)` constructing
the handle, `signal.send()` in place of the `SIGQUIT` kill (the first
`send` creates the witness file), and an `Err` return in place of the
`panic!`. -/
def connectToSocketWin (pid : Nat) (path : String) (ex : Nat → Bool) : ConnectRun :=
  if ex 0 then
    { effects := [.checkSocket, .openSocket], outcome := .ok }
  else
    let r := retryLoop .sendSignal ex 1 99
    if ex r.2.2 then
      { effects := [.checkSocket, .sendSignal] ++ r.1 ++
          [.checkSocket, .openSocket, .dropWitness]
        outcome := .ok }
    else
      { effects := [.checkSocket, .sendSignal] ++ r.1 ++ [.checkSocket]
        outcome := .errReturn (noResponseMsg path pid) }

/-- Whether a connect outcome is an `Err` value returned to the caller. -/
def ConnectOutcome.isErrReturn : ConnectOutcome → Bool
  | .errReturn _ => true
  | _ => false

/-- The socket path never appears. -/
def neverExists : Nat → Bool := fun _ => false

/-- The socket path exists at every check. -/
def alwaysExists : Nat → Bool := fun _ => true

/-! ## The `signaled()` futures of the attacher variants
(`src/attach/attacher/{unix,inotify,kqueue,dummy}.rs`)

Two aspects are modelled.

*When the arming side effects run.*  In Rust, the statements of a
`fn signaled() -> impl Future` that precede the `async move` block run
when `signaled()` is called; the body of an `async fn` runs only when
the returned future is polled.  Each variant's `signaled` is split
accordingly into the effects performed at construction and the steps
of the future's body; the arming effects that run on the first poll
are those body effects that precede the first await point.

*When the future resolves.*  Each variant's wait loop is run against
an explicit finite trace of the events delivered so far; witness-file
existence checks are answered by an oracle indexed per check. -/

/-- An OS-level side effect that arms a wake-up. -/
inductive ArmEffect where
  | registerSigMask
  | installWatch
deriving DecidableEq, Repr

/-- One step of a `signaled()` future body. -/
inductive BodyStep where
  | eff (e : ArmEffect)
  | checkWitnessReturn
  | awaitEvents
deriving DecidableEq, Repr

/-- The four attacher variants. -/
inductive AttacherVariant where
  | dummy
  | unixSig
  | inotify
  | kqueue
deriving DecidableEq, Repr

/-- The side effects a variant's `signaled()` performs synchronously,
before returning the future.  Only the Unix variant has a synchronous
prefix: `Signals::new([Signal::Quit])` runs before its `async move`
block (`attacher/unix.rs` line 41).  The inotify and kqueue variants
are `async fn`s, and the dummy variant has no effects at all. -/
def constructionEffects : AttacherVariant → List ArmEffect
  | .unixSig => [.registerSigMask]
  | _ => []

/-- The body of the returned future.  Unix: loop awaiting delivered
signals.  Inotify: `Inotify::init` + `watches().add` (install the
directory watch), then the `std::fs::exists` early return, then the
event-await loop.  Kqueue: `Watcher::new` + `add_filename` + `watch`,
then the loop whose first action is the `std::fs::exists` early
return, then awaiting wake events.  Dummy: `Ok(())` immediately. -/
def signaledBody : AttacherVariant → List BodyStep
  | .dummy => []
  | .unixSig => [.awaitEvents]
  | .inotify => [.eff .installWatch, .checkWitnessReturn, .awaitEvents]
  | .kqueue => [.eff .installWatch, .checkWitnessReturn, .awaitEvents]

/-- The arming effects that run only at the first poll of the returned
future: body effects preceding the first await point. -/
def firstPollEffects (v : AttacherVariant) : List ArmEffect :=
  ((signaledBody v).takeWhile (fun s => decide ¬(s = BodyStep.awaitEvents))).filterMap
    (fun s => match s with
      | .eff e => some e
      | _ => none)

/-- An OS signal as classified by `attacher/unix.rs`:
`SIGQUIT` or anything else. -/
inductive OsSignal where
  | quit
  | other
deriving DecidableEq, Repr

/-- The wait loop of the Unix `signaled()` body: for each delivered
item of the `Signals` stream (a `Result`; `Err` items are skipped by
the `if let Ok`), when it is `SIGQUIT` and the witness file exists at
that moment, break with success.  `fe i` answers the existence check
made while handling the `i`-th item; the result is the index of the
item on which the future resolved, or `none` when the future is still
pending after the whole trace (the `Signals` stream never terminates,
so the trace is always a prefix of an unending stream). -/
def unixSignaledRun (fe : Nat → Bool) : List (Option OsSignal) → Nat → Option Nat
  | [], _ => none
  | item :: rest, i =>
    match item with
    | some .quit => if fe i then some i else unixSignaledRun fe rest (i + 1)
    | _ => unixSignaledRun fe rest (i + 1)

/-- The inotify `signaled()` body after installing the watch: if the
witness file already exists, return at once having consumed no events;
otherwise resolve on the first create event whose file name matches
the witness file name.  Returns the number of events consumed before
resolving, `none` while still pending. -/
def inotifySignaledRun (existsOnEntry : Bool) (target : String) (events : List String) :
    Option Nat :=
  if existsOnEntry then some 0
  else
    let rec go : List String → Nat → Option Nat
      | [], _ => none
      | e :: rest, n => if e = target then some (n + 1) else go rest (n + 1)
    go events 0

/-- The kqueue `signaled()` body after arming the watcher: a loop that
first re-checks witness existence (`fe i` answers the `i`-th check)
and returns when it holds, else awaits the next directory wake event;
`wakes` is the number of wake events delivered.  Returns the number of
checks made before resolving, `none` while still pending. -/
def kqueueSignaledRun (fe : Nat → Bool) : Nat → Nat → Option Nat
  | i, 0 => if fe i then some i else none
  | i, w + 1 => if fe i then some i else kqueueSignaledRun fe (i + 1) w

/-- The dummy `signaled()`: resolves immediately. -/
def dummySignaledRun : Option Unit := some ()

/-- The witness file never exists. -/
def witnessNever : Nat → Bool := fun _ => false

/-- The witness file exists at every check. -/
def witnessAlways : Nat → Bool := fun _ => true

/-! ## `listen` and the server session
(`src/attach/unix_socket.rs::listen`,
`src/operate/capnp/mod.rs::run_server_connection`) -/

/-- The outcome of one race inside `listen`: either `accept()` wins
and yields a connection, or the cancellation future wins. -/
inductive ListenEvent where
  | accepted (connId : Nat)
  | cancelled
deriving DecidableEq, Repr

/-- The `listen` stream: `await_attach_signal` and each
`await_connection` race against `cancellation_token.cancelled()`;
once cancellation wins a race, `await_connection` returns `Ok(None)`
and the stream ends.  The input is the sequence of race outcomes; the
output is the list of connections the stream yields. -/
def listenRun : List ListenEvent → List Nat
  | [] => []
  | .accepted c :: rest => c :: listenRun rest
  | .cancelled :: _ => []

/-- One step observable by a server session: pending RPC work at a
suspension point, or the cancellation token being cancelled. -/
inductive SessionStep where
  | rpcWork
  | cancelRequested
deriving DecidableEq, Repr

/-- Whether a session step is RPC work. -/
def SessionStep.isRpcWork : SessionStep → Bool
  | .rpcWork => true
  | .cancelRequested => false

/-- `run_server_connection(input, output, client)`: wraps the streams,
builds the two-party `RpcSystem`, and awaits it to completion.  No
cancellation token is taken and nothing in the function observes one,
so every RPC step of the session trace is executed, before and after
any cancellation request.  Returns the number of RPC steps executed. -/
def runServerConnection (trace : List SessionStep) : Nat :=
  trace.countP SessionStep.isRpcWork

/-- Modelled from the spec: `run_server_connection(input, output,
bootstrap_hook, cancel)` as the spec describes it — the session future
is raced against the cancellation token's future, so the session
executes only the RPC steps before the first cancellation request and
terminates at the next suspension point.  The cancellation parameter
and the race are missing from `src/operate/capnp/mod.rs`. -/
def runServerConnectionSpec (trace : List SessionStep) : Nat :=
  (trace.takeWhile SessionStep.isRpcWork).length

/-! ## Helper lemmas -/

/-- Inserting a binding makes lookup of that key find it. -/
theorem servicesGet_insert_self (l : List (String × LazyCell)) (name : String) (c : LazyCell) :
    servicesGet (servicesInsert l name c) name = some c := by
  induction l with
  | nil => simp [servicesInsert, servicesGet]
  | cons kv rest ih =>
    by_cases h : kv.1 = name
    · simp [servicesInsert, h, servicesGet]
    · simpa [servicesInsert, h, servicesGet] using ih

/-- A realized cell answers without running the factory and without
changing the router state. -/
theorem service_of_ready (s : TeleopServer) (name : String) (hook : Nat)
    (h : servicesGet s.services name = some (.ready hook)) :
    s.service name = ⟨.ok hook, s, 0⟩ := by
  simp [TeleopServer.service, h]

/-- Iterating `service` on a realized cell never runs the factory and
never changes the state. -/
theorem serviceIter_of_ready (s : TeleopServer) (name : String) (hook : Nat)
    (h : servicesGet s.services name = some (.ready hook)) :
    ∀ m, s.serviceIter name m = (s, 0) := by
  intro m
  induction m with
  | zero => rfl
  | succ m ih =>
    simp [TeleopServer.serviceIter, service_of_ready s name hook h, ih]

/-- The retry loop under an oracle that never sees the socket: it
performs `fuel` sends, its effect list holds those `fuel` sends, and
it consumes `fuel + 1` existence checks. -/
theorem retryLoop_never_spec (sendEff : ConnEffect) (ex : Nat → Bool)
    (hs1 : ¬sendEff = ConnEffect.checkSocket) (hs2 : ¬sendEff = ConnEffect.sleep100)
    (h : ∀ n, ex n = false) :
    ∀ (fuel checkIdx : Nat),
      (retryLoop sendEff ex checkIdx fuel).1.count sendEff = fuel ∧
      (retryLoop sendEff ex checkIdx fuel).2.1 = fuel ∧
      (retryLoop sendEff ex checkIdx fuel).2.2 = checkIdx + fuel + 1 := by
  intro fuel
  induction fuel with
  | zero =>
    intro c
    simp [retryLoop, List.count_cons, hs1]
  | succ fuel ih =>
    intro c
    have hc := h c
    have ihc := ih (c + 1)
    simp only [retryLoop, hc, Bool.false_eq_true, if_false]
    refine ⟨?_, ?_, ?_⟩
    · simp [List.count_cons, hs1, hs2, ihc.1]
    · simp [ihc.2.1]
    · simp [ihc.2.2]
      omega

/-- After `File::create`, the file exists. -/
theorem fileExists_create (fs : Fs) (p : String) :
    fileExists (createFile fs p) p = true := by
  by_cases h : fileExists fs p
  · simp [createFile, h]
  · simp only [createFile, h, if_neg, Bool.false_eq_true, if_false]
    simp [fileExists]

/-- After `send()`, the witness file exists (it is re-created when
missing). -/
theorem fileExists_signalSend (fs : Fs) (p : String) :
    fileExists (signalSend fs p) p = true := by
  by_cases h : fileExists fs p
  · simp [signalSend, h]
  · simp [signalSend, h, fileExists_create]

/-- After any number of `send()` calls following the creation of the
witness file, it still exists. -/
theorem fileExists_signalSendIter (fs : Fs) (p : String) :
    ∀ n, fileExists (signalSendIter p (createFile fs p) n) p = true := by
  intro n
  induction n with
  | zero => exact fileExists_create fs p
  | succ n ih => simpa [signalSendIter] using fileExists_signalSend _ p

/-- After `AutoDropFile::drop`, the file is absent, whatever the prior
state of the filesystem. -/
theorem fileExists_autoDropFileDrop (fs : Fs) (p : String) :
    fileExists (autoDropFileDrop fs p) p = false := by
  by_cases h : fileExists fs p
  · simp only [autoDropFileDrop, h, if_true]
    simp [fileExists, removeFile, List.mem_filter]
  · simp only [autoDropFileDrop, h, Bool.false_eq_true, if_false]

/-- Resolution of the Unix `signaled()` loop over a delivered-event
trace, for an arbitrary starting item index. -/
theorem unixSignaledRun_isSome (fe : Nat → Bool) :
    ∀ (tr : List (Option OsSignal)) (k : Nat),
      ((unixSignaledRun fe tr k).isSome = true ↔
        ∃ i, tr.get? i = some (some OsSignal.quit) ∧ fe (k + i) = true) := by
  intro tr
  induction tr with
  | nil =>
    intro k
    simp [unixSignaledRun]
  | cons item rest ih =>
    intro k
    match item with
    | some OsSignal.quit =>
      by_cases hfe : fe k
      · simp only [unixSignaledRun, hfe, if_true, Option.isSome_some, true_iff]
        exact ⟨0, by simp [List.get?], by simpa using hfe⟩
      · simp only [unixSignaledRun, hfe, Bool.false_eq_true, if_false]
        rw [ih (k + 1)]
        constructor
        · rintro ⟨i, hget, hf⟩
          exact ⟨i + 1, by simpa [List.get?] using hget, by simpa [Nat.add_comm, Nat.add_assoc, Nat.add_left_comm] using hf⟩
        · rintro ⟨i, hget, hf⟩
          match i with
          | 0 =>
            exfalso
            apply hfe
            simpa using hf
          | j + 1 =>
            refine ⟨j, by simpa [List.get?] using hget, ?_⟩
            simpa [Nat.add_comm, Nat.add_assoc, Nat.add_left_comm] using hf
    | some OsSignal.other =>
      simp only [unixSignaledRun]
      rw [ih (k + 1)]
      constructor
      · rintro ⟨i, hget, hf⟩
        exact ⟨i + 1, by simpa [List.get?] using hget, by simpa [Nat.add_comm, Nat.add_assoc, Nat.add_left_comm] using hf⟩
      · rintro ⟨i, hget, hf⟩
        match i with
        | 0 => simp [List.get?] at hget
        | j + 1 =>
          refine ⟨j, by simpa [List.get?] using hget, ?_⟩
          simpa [Nat.add_comm, Nat.add_assoc, Nat.add_left_comm] using hf
    | none =>
      simp only [unixSignaledRun]
      rw [ih (k + 1)]
      constructor
      · rintro ⟨i, hget, hf⟩
        exact ⟨i + 1, by simpa [List.get?] using hget, by simpa [Nat.add_comm, Nat.add_assoc, Nat.add_left_comm] using hf⟩
      · rintro ⟨i, hget, hf⟩
        match i with
        | 0 => simp [List.get?] at hget
        | j + 1 =>
          refine ⟨j, by simpa [List.get?] using hget, ?_⟩
          simpa [Nat.add_comm, Nat.add_assoc, Nat.add_left_comm] using hf

/-- Once cancellation wins a race in `listen`, later events are never
reached. -/
theorem listenRun_stops_at_cancel (l₁ l₂ : List ListenEvent) :
    listenRun (l₁ ++ ListenEvent.cancelled :: l₂) =
      listenRun (l₁ ++ [ListenEvent.cancelled]) := by
  induction l₁ with
  | nil => simp [listenRun]
  | cons e rest ih =>
    match e with
    | .accepted c => simp [listenRun, ih]
    | .cancelled => simp [listenRun]

/-! ## Claim theorems -/

/-- C1 counterexample: at the concrete unknown name `tango`, `service`
fails the call with an error of the `failed` kind, which is not the
`unimplemented` kind the claim states. -/
theorem service_unknown_kind_not_unimplemented_cex :
    ((TeleopServer.new.registerService "echo" 0).service "tango").result =
        .error { kind := ErrorKind.failed, extra := "service tango not found" } ∧
    ErrorKind.failed ≠ ErrorKind.unimplemented :=
  ⟨rfl, by decide⟩

/-- C1 (amended): for every router state and every name not in the
service map, `service(name)` fails that RPC call with an error of the
`failed` kind whose message is `service <name> not found`, and the
router state is unchanged, so every subsequent `service` call on the
same session behaves exactly as if the failed call had not happened. -/
theorem service_unknown_name_fails_with_failed_kind (s : TeleopServer) (name : String)
    (h : servicesGet s.services name = none) :
    (s.service name).result =
        .error { kind := ErrorKind.failed, extra := "service " ++ name ++ " not found" } ∧
    (s.service name).state = s ∧
    ∀ other, (s.service name).state.service other = s.service other := by
  refine ⟨?_, ?_, fun other => ?_⟩ <;> simp [TeleopServer.service, h, Error.failedErr]

/-- Witness for C1: a router with `echo` registered and the unknown
name `tango`. -/
theorem service_unknown_name_fails_with_failed_kind_witness :
    ((TeleopServer.new.registerService "echo" 0).service "tango").result =
        .error { kind := ErrorKind.failed, extra := "service " ++ "tango" ++ " not found" } ∧
    ((TeleopServer.new.registerService "echo" 0).service "tango").state =
        TeleopServer.new.registerService "echo" 0 ∧
    ((TeleopServer.new.registerService "echo" 0).service "tango").state.service "echo" =
        (TeleopServer.new.registerService "echo" 0).service "echo" := by
  have h := service_unknown_name_fails_with_failed_kind
    (TeleopServer.new.registerService "echo" 0) "tango" (by decide)
  exact ⟨h.1, h.2.1, h.2.2 "echo"⟩

/-- C2 counterexample: against the concrete pid `7` and an oracle under
which the socket path never appears, the Unix `connect` ends in a
`panic!` carrying the no-response message — it is not reported to the
caller as an error return. -/
theorem connect_exhaustion_not_error_return_cex :
    (connectUnix 7 "/tmp" neverExists).outcome =
        .crashed (noResponseMsg (socketFilePath "/tmp" 7) 7) ∧
    ConnectOutcome.isErrReturn (connectUnix 7 "/tmp" neverExists).outcome = false := by
  decide

/-- C2 (amended): for every pid whose rendezvous socket path never
appears, `connect` makes exactly 100 signal attempts (one initial send
plus 99 retries at 100 ms intervals, checking path existence each
time) and then fails with the no-response message; the Unix
implementation fails by `panic!`, while the Windows implementation
returns the failure to the caller as an error return. -/
theorem connect_retry_budget_exhaustion (pid : Nat) (tmp path : String) (ex : Nat → Bool)
    (h : ∀ n, ex n = false) :
    (connectUnix pid tmp ex).effects.count ConnEffect.sendQuit = 100 ∧
    (connectUnix pid tmp ex).outcome = .crashed (noResponseMsg (socketFilePath tmp pid) pid) ∧
    (connectToSocketWin pid path ex).effects.count ConnEffect.sendSignal = 100 ∧
    (connectToSocketWin pid path ex).outcome = .errReturn (noResponseMsg path pid) := by
  have hu := retryLoop_never_spec .sendQuit ex (by decide) (by decide) h 99 1
  have hw := retryLoop_never_spec .sendSignal ex (by decide) (by decide) h 99 1
  have h0 := h 0
  have hru : ex (retryLoop ConnEffect.sendQuit ex 1 99).2.2 = false := h _
  have hrw : ex (retryLoop ConnEffect.sendSignal ex 1 99).2.2 = false := h _
  refine ⟨?_, ?_, ?_, ?_⟩
  · simp only [connectUnix, h0, Bool.false_eq_true, if_false, hru]
    simp [List.count_append, List.count_cons, hu.1]
  · simp [connectUnix, h0, hru]
  · simp only [connectToSocketWin, h0, Bool.false_eq_true, if_false, hrw]
    simp [List.count_append, List.count_cons, hw.1]
  · simp [connectToSocketWin, h0, hrw]

/-- Witness for C2: pid `7` with the never-appearing socket oracle. -/
theorem connect_retry_budget_exhaustion_witness :
    (connectUnix 7 "/tmp" neverExists).effects.count ConnEffect.sendQuit = 100 ∧
    (connectUnix 7 "/tmp" neverExists).outcome =
        .crashed (noResponseMsg (socketFilePath "/tmp" 7) 7) ∧
    (connectToSocketWin 7 "/tmp/x" neverExists).effects.count ConnEffect.sendSignal = 100 ∧
    (connectToSocketWin 7 "/tmp/x" neverExists).outcome =
        .errReturn (noResponseMsg "/tmp/x" 7) :=
  connect_retry_budget_exhaustion 7 "/tmp" "/tmp/x" neverExists (fun _ => rfl)

/-- C3 (confirmed): after `register_service(name, f)`, any positive
number of `service(name)` calls runs the factory exactly once in
total; the first call runs it and returns its hook, and every later
call returns the memoized hook with no factory run and no state
change. -/
theorem register_service_factory_runs_once (s : TeleopServer) (name : String) (fid : Nat)
    (n : Nat) (h : 1 ≤ n) :
    (((s.registerService name fid).serviceIter name n).2 = 1) ∧
    ((s.registerService name fid).service name).result = .ok fid ∧
    ((s.registerService name fid).service name).factoryRuns = 1 ∧
    (((s.registerService name fid).service name).state.service name).result = .ok fid ∧
    (((s.registerService name fid).service name).state.service name).factoryRuns = 0 ∧
    (((s.registerService name fid).service name).state.service name).state =
      ((s.registerService name fid).service name).state := by
  obtain ⟨m, rfl⟩ : ∃ m, n = m + 1 := ⟨n - 1, by omega⟩
  have hget : servicesGet (s.registerService name fid).services name = some (.uninit fid) :=
    servicesGet_insert_self s.services name (.uninit fid)
  have hsvc : (s.registerService name fid).service name =
      ⟨.ok fid, ⟨servicesInsert (s.registerService name fid).services name (.ready fid)⟩, 1⟩ := by
    simp [TeleopServer.service, hget]
  have hready : servicesGet (((s.registerService name fid).service name).state).services name =
      some (.ready fid) := by
    rw [hsvc]
    exact servicesGet_insert_self _ _ _
  have hstable := service_of_ready _ name fid hready
  have hiter := serviceIter_of_ready _ name fid hready m
  have hiter2 := hiter
  rw [hsvc] at hiter2
  refine ⟨?_, ?_, ?_, ?_, ?_, ?_⟩
  · simp [TeleopServer.serviceIter, hsvc, hiter2]
  · rw [hsvc]
  · rw [hsvc]
  · rw [hstable]
  · rw [hstable]
  · rw [hstable]

/-- Witness for C3: register `echo` with factory `5` on an empty
router and call `service("echo")` three times. -/
theorem register_service_factory_runs_once_witness :
    (((TeleopServer.new.registerService "echo" 5).serviceIter "echo" 3).2 = 1) ∧
    ((TeleopServer.new.registerService "echo" 5).service "echo").result = .ok 5 ∧
    ((TeleopServer.new.registerService "echo" 5).service "echo").factoryRuns = 1 ∧
    (((TeleopServer.new.registerService "echo" 5).service "echo").state.service "echo").result =
      .ok 5 ∧
    (((TeleopServer.new.registerService "echo" 5).service "echo").state.service
        "echo").factoryRuns = 0 ∧
    (((TeleopServer.new.registerService "echo" 5).service "echo").state.service "echo").state =
      ((TeleopServer.new.registerService "echo" 5).service "echo").state :=
  register_service_factory_runs_once TeleopServer.new "echo" 5 3 (by decide)

/-- C4 counterexample: the inotify variant performs no arming side
effect before `signaled()` returns its future; its watcher
installation happens only at the first poll. -/
theorem signaled_inotify_arms_at_first_poll_cex :
    constructionEffects AttacherVariant.inotify = [] ∧
    firstPollEffects AttacherVariant.inotify = [ArmEffect.installWatch] := by
  decide

/-- C4 (amended): only the Unix variant arms its wake-up synchronously
when `signaled()` is called (the signal-mask registration precedes the
returned future); the inotify and kqueue variants install their
directory watcher only when the returned future is first polled
(before its first await point), and the dummy variant arms nothing. -/
theorem signaled_arming_effects_by_variant :
    (constructionEffects AttacherVariant.unixSig = [ArmEffect.registerSigMask] ∧
      firstPollEffects AttacherVariant.unixSig = []) ∧
    (constructionEffects AttacherVariant.inotify = [] ∧
      firstPollEffects AttacherVariant.inotify = [ArmEffect.installWatch]) ∧
    (constructionEffects AttacherVariant.kqueue = [] ∧
      firstPollEffects AttacherVariant.kqueue = [ArmEffect.installWatch]) ∧
    (constructionEffects AttacherVariant.dummy = [] ∧
      firstPollEffects AttacherVariant.dummy = []) := by
  decide

/-- C5 (confirmed): the Unix `signaled()` future resolves within a
trace of delivered signals exactly when some delivered item is a
`SIGQUIT` handled at a moment when the witness file exists; a
`SIGQUIT` delivered while the file is absent never causes
resolution. -/
theorem unix_signaled_resolves_iff_quit_with_witness_file (fe : Nat → Bool)
    (tr : List (Option OsSignal)) :
    ((unixSignaledRun fe tr 0).isSome = true ↔
      ∃ i, tr.get? i = some (some OsSignal.quit) ∧ fe i = true) := by
  simpa using unixSignaledRun_isSome fe tr 0

/-- C6 counterexample: with the witness file present at every check
and no signal delivered, the Unix variant's `signaled()` future is
still pending — the file's existence alone does not make it return. -/
theorem signaled_witness_present_unix_pending_cex :
    unixSignaledRun witnessAlways [] 0 = none := rfl

/-- C6 (amended): when the witness file already exists as `signaled()`
starts waiting, the inotify variant returns immediately with no event
consumed, the kqueue variant returns at its first existence re-check
with no wake event consumed, and the dummy variant is immediate; the
Unix variant alone additionally requires a `SIGQUIT` — it stays
pending with no signal delivered and resolves on the first one. -/
theorem signaled_witness_present_on_entry (t : String) (evs : List String)
    (fe : Nat → Bool) (wakes : Nat) (h : fe 0 = true) :
    inotifySignaledRun true t evs = some 0 ∧
    kqueueSignaledRun fe 0 wakes = some 0 ∧
    dummySignaledRun = some () ∧
    unixSignaledRun fe [] 0 = none ∧
    unixSignaledRun fe [some OsSignal.quit] 0 = some 0 := by
  refine ⟨rfl, ?_, rfl, rfl, ?_⟩
  · cases wakes <;> simp [kqueueSignaledRun, h]
  · simp [unixSignaledRun, h]

/-- Witness for C6: the always-present witness-file oracle with no
events delivered beyond one `SIGQUIT` for the Unix variant. -/
theorem signaled_witness_present_on_entry_witness :
    inotifySignaledRun true "w" [] = some 0 ∧
    kqueueSignaledRun witnessAlways 0 0 = some 0 ∧
    dummySignaledRun = some () ∧
    unixSignaledRun witnessAlways [] 0 = none ∧
    unixSignaledRun witnessAlways [some OsSignal.quit] 0 = some 0 :=
  signaled_witness_present_on_entry "w" [] witnessAlways 0 rfl

/-- C7 (confirmed): from the moment the handle creates the witness
file at the PID-keyed path, the file exists after any number of
further `send()` calls (the handle's own operations while alive), it
is absent after the handle's drop, and the drop of a handle leaves the
file absent whatever the filesystem held. -/
theorem witness_file_lifecycle_invariant (fs fs2 : Fs) (cwd : String) (pid : Nat) (n : Nat)
    (p : String) :
    fileExists (signalSendIter (attachFilePath cwd pid) (createFile fs (attachFilePath cwd pid)) n)
        (attachFilePath cwd pid) = true ∧
    fileExists
        (autoDropFileDrop
          (signalSendIter (attachFilePath cwd pid) (createFile fs (attachFilePath cwd pid)) n)
          (attachFilePath cwd pid))
        (attachFilePath cwd pid) = false ∧
    fileExists (autoDropFileDrop fs2 p) p = false :=
  ⟨fileExists_signalSendIter _ _ n, fileExists_autoDropFileDrop _ _,
    fileExists_autoDropFileDrop _ _⟩

/-- C8 (code bug): cancellation does end the `listen` stream with no
further items, but `run_server_connection` takes no cancellation token
and awaits the RPC system to completion, so an in-flight session
executes all its RPC steps even after a cancellation request, where
the spec's raced session would stop at the next suspension point. -/
theorem cancel_ends_listen_but_session_runs_on (l₁ l₂ : List ListenEvent) :
    listenRun (l₁ ++ ListenEvent.cancelled :: l₂) =
        listenRun (l₁ ++ [ListenEvent.cancelled]) ∧
    runServerConnection
        [SessionStep.rpcWork, SessionStep.cancelRequested,
          SessionStep.rpcWork, SessionStep.rpcWork] = 3 ∧
    runServerConnectionSpec
        [SessionStep.rpcWork, SessionStep.cancelRequested,
          SessionStep.rpcWork, SessionStep.rpcWork] = 1 :=
  ⟨listenRun_stops_at_cancel l₁ l₂, by decide, by decide⟩

/-- C9 (confirmed): `Echo::echo(m)` returns `m` verbatim as the reply,
for every string `m`, the empty string and multi-byte strings
included. -/
theorem echo_returns_message_verbatim (m : String) :
    EchoServer.echo { message := m } = .ok { reply := m } := rfl

/-- C10 (confirmed): when the rendezvous socket path exists at the
first check, `connect` performs no attach side effect — no witness
file creation, no handle construction, no signal send — its only
effects are the path check and opening the socket. -/
theorem connect_existing_socket_no_attach_effects (pid : Nat) (tmp path : String)
    (ex : Nat → Bool) (h : ex 0 = true) :
    connectUnix pid tmp ex = ⟨[ConnEffect.checkSocket, ConnEffect.openSocket], .ok⟩ ∧
    connectToSocketWin pid path ex = ⟨[ConnEffect.checkSocket, ConnEffect.openSocket], .ok⟩ ∧
    (connectUnix pid tmp ex).effects.count ConnEffect.createWitness = 0 ∧
    (connectUnix pid tmp ex).effects.count ConnEffect.sendQuit = 0 ∧
    (connectToSocketWin pid path ex).effects.count ConnEffect.sendSignal = 0 := by
  have h1 : connectUnix pid tmp ex = ⟨[ConnEffect.checkSocket, ConnEffect.openSocket], .ok⟩ := by
    simp [connectUnix, h]
  have h2 : connectToSocketWin pid path ex =
      ⟨[ConnEffect.checkSocket, ConnEffect.openSocket], .ok⟩ := by
    simp [connectToSocketWin, h]
  refine ⟨h1, h2, ?_, ?_, ?_⟩ <;> first
    | (rw [h1]; decide)
    | (rw [h2]; decide)

/-- Witness for C10: pid `7` with the socket present at every check. -/
theorem connect_existing_socket_no_attach_effects_witness :
    connectUnix 7 "/tmp" alwaysExists =
        ⟨[ConnEffect.checkSocket, ConnEffect.openSocket], .ok⟩ ∧
    connectToSocketWin 7 "/tmp/x" alwaysExists =
        ⟨[ConnEffect.checkSocket, ConnEffect.openSocket], .ok⟩ ∧
    (connectUnix 7 "/tmp" alwaysExists).effects.count ConnEffect.createWitness = 0 ∧
    (connectUnix 7 "/tmp" alwaysExists).effects.count ConnEffect.sendQuit = 0 ∧
    (connectToSocketWin 7 "/tmp/x" alwaysExists).effects.count ConnEffect.sendSignal = 0 :=
  connect_existing_socket_no_attach_effects 7 "/tmp" "/tmp/x" alwaysExists rfl

end Teleop
